import Mathlib

/-!
Shallow embedding of the GAR analysis core (gar_8001.py, gar_8006.py, gar_4001.py,
gar_4010.py, gar_8012.py and util/gar_classes.py).

Modelling conventions:
* Python floats (hectare areas, diameters, targets) are embedded as `ℚ`; decimal
  literals such as `0.5`, `0.33`, `0.4` are embedded as the exact rationals
  `1/2`, `33/100`, `4/10`.
* Nullable arguments are `Option` values.  Python truthiness of an optional
  number (`if age:`) is `some a` with `a ≠ 0`; truthiness of a string is
  non-emptiness.
* A Python function that can raise an exception (a `TypeError` from comparing
  `None` with a number, a `KeyError` from a plain-dict lookup) is embedded as an
  `Option`-returning function, where `none` models the raised exception.  State
  mutations are threaded functionally; on the exception path the whole call
  returns `none`.
* The auto-vivifying `defaultdict` hierarchies (`TotalArea`/`CellArea` in
  gar_classes.py) are embedded as total functions from keys to values that are
  `0` everywhere initially: this is exactly the "unknown keys hold zero-valued
  buckets" semantics of `defaultdict`, and pointwise update embeds `+=`.
* The rank walk (`calculate_cell_ranks`) iterates Python dictionaries; the
  walk order over the (level, bec) buckets is taken as an explicit input list,
  matching the source's priority list `lst_level` with the becs of each level
  in dictionary order.
-/

/-- Python `s.startswith(p)`: embedded via the structurally recursive
`List.isPrefixOf` on the underlying character lists (kernel-reducible, unlike
`String.startsWith`). -/
def pyStartsWith (s p : String) : Bool :=
  p.data.isPrefixOf s.data

/-- Python `s.replace(' ', '')`: drop every space character. -/
def pyStripSpaces (s : String) : String :=
  ⟨s.data.filter (fun c => c != ' ')⟩

/-- Python truthiness of an optional integer (`if age:`): present and nonzero. -/
def truthyI (x : Option Int) : Bool :=
  match x with
  | some v => v != 0
  | none => false

/-- Python truthiness of an optional rational (`if diam:`): present and nonzero. -/
def truthyQ (x : Option ℚ) : Bool :=
  match x with
  | some v => v != 0
  | none => false

/-- Value of an optional integer; only read behind a truthiness/None guard. -/
def valI (x : Option Int) : Int := x.getD 0

/-- Value of an optional rational; only read behind a truthiness/None guard. -/
def valQ (x : Option ℚ) : ℚ := x.getD 0

/-- `age is not None and age >= n` — the None-safe comparison used in gar_8001. -/
def ageGe (age : Option Int) (n : Int) : Bool :=
  match age with
  | some a => decide (n ≤ a)
  | none => false

/-- `age is not None and age > 0`. -/
def agePos (age : Option Int) : Bool :=
  match age with
  | some a => decide (0 < a)
  | none => false

/-- `diam is not None and diam >= q`. -/
def diamGe (diam : Option ℚ) (q : ℚ) : Bool :=
  match diam with
  | some d => decide (q ≤ d)
  | none => false

namespace Gar8001

/-- Age ladder of the shallow snowpack branch (gar_8001.py lines 107-125):
terminal `SIC` at age ≥ 140, then 10-year recruitment bands down to 60. -/
def bandShallow (a : Int) : Option String :=
  if 140 ≤ a then some "SIC"
  else if 130 ≤ a ∧ a ≤ 139 then some "Recruit 1"
  else if 120 ≤ a ∧ a ≤ 129 then some "Recruit 2"
  else if 110 ≤ a ∧ a ≤ 119 then some "Recruit 3"
  else if 100 ≤ a ∧ a ≤ 109 then some "Recruit 4"
  else if 90 ≤ a ∧ a ≤ 99 then some "Recruit 5"
  else if 80 ≤ a ∧ a ≤ 89 then some "Recruit 6"
  else if 70 ≤ a ∧ a ≤ 79 then some "Recruit 7"
  else if 60 ≤ a ∧ a ≤ 69 then some "Recruit 8"
  else none

/-- Recruitment bands of the IDFmw THLB branch (gar_8001.py lines 147-163). -/
def bandModerateIdfmw (a : Int) : Option String :=
  if 130 ≤ a ∧ a ≤ 139 then some "Recruit 1"
  else if 120 ≤ a ∧ a ≤ 129 then some "Recruit 2"
  else if 110 ≤ a ∧ a ≤ 119 then some "Recruit 3"
  else if 100 ≤ a ∧ a ≤ 109 then some "Recruit 4"
  else if 90 ≤ a ∧ a ≤ 99 then some "Recruit 5"
  else if 80 ≤ a ∧ a ≤ 89 then some "Recruit 6"
  else if 70 ≤ a ∧ a ≤ 79 then some "Recruit 7"
  else if 60 ≤ a ∧ a ≤ 69 then some "Recruit 8"
  else none

/-- Recruitment bands of the IDFdk/IDFdm/ICHdw/MS THLB branch
(gar_8001.py lines 202-226). -/
def bandModerateOther (a : Int) : Option String :=
  if 165 ≤ a ∧ a ≤ 174 then some "Recruit 1"
  else if 155 ≤ a ∧ a ≤ 164 then some "Recruit 2"
  else if 145 ≤ a ∧ a ≤ 154 then some "Recruit 3"
  else if 135 ≤ a ∧ a ≤ 144 then some "Recruit 4"
  else if 125 ≤ a ∧ a ≤ 134 then some "Recruit 5"
  else if 115 ≤ a ∧ a ≤ 124 then some "Recruit 6"
  else if 105 ≤ a ∧ a ≤ 114 then some "Recruit 7"
  else if 95 ≤ a ∧ a ≤ 104 then some "Recruit 8"
  else if 85 ≤ a ∧ a ≤ 94 then some "Recruit 9"
  else if 75 ≤ a ∧ a ≤ 84 then some "Recruit 10"
  else if 65 ≤ a ∧ a ≤ 74 then some "Recruit 11"
  else if 55 ≤ a ∧ a ≤ 64 then some "Recruit 12"
  else none

/-- NTHLB recruitment bands of the IDFdk/IDFdm/ICHdw/MS non-THLB branch
(gar_8001.py lines 235-248), reached only when age < 120. -/
def bandNthlbOther (a : Int) : Option String :=
  if 115 ≤ a ∧ a ≤ 119 then some "NTHLB Recruit 6"
  else if 105 ≤ a ∧ a ≤ 114 then some "NTHLB Recruit 7"
  else if 95 ≤ a ∧ a ≤ 104 then some "NTHLB Recruit 8"
  else if 85 ≤ a ∧ a ≤ 94 then some "NTHLB Recruit 9"
  else if 75 ≤ a ∧ a ≤ 84 then some "NTHLB Recruit 10"
  else if 65 ≤ a ∧ a ≤ 74 then some "NTHLB Recruit 11"
  else if 55 ≤ a ∧ a ≤ 64 then some "NTHLB Recruit 12"
  else none

/-- The snow-pack elif chain of `Gar8001.calculate_level` (gar_8001.py lines
103-278), before the final immature override.  `b` is the space-stripped bec
label.  Result `none` models a raised `TypeError` (a `None` value compared with
a number on a path where the source does not guard against `None`); `some lvl`
is the normally computed level. -/
def levelChain (b : String) (age : Option Int) (spp : String) (cc : Option Int)
    (slp : Option String) (thlb : Option ℚ) (diam : Option ℚ) (pct : Option Int) :
    Option (Option String) :=
  let t := thlb.getD 0
  -- SHALLOW snowpack zone: BG / PP / IDFxh with Fir leading
  if (pyStartsWith b "BG" ∨ pyStartsWith b "PP" ∨ pyStartsWith b "IDFxh") ∧ pyStartsWith spp "F" then
    match age with
    | some a => if a ≠ 0 then some (bandShallow a) else some none
    | none => some none
  -- MODERATE snowpack zone: IDFmw
  else if pyStartsWith b "IDFmw" then
    if pyStartsWith spp "F" ∧ slp ≠ some "80+" then
      if 0 < t then
        if truthyI cc ∧ 36 ≤ valI cc then
          let lvl1 : Option String :=
            if ageGe age 140 ∨ (diamGe diam 40 ∧ agePos age) then some "SIC" else none
          match diam with
          | some d =>
            if d < 40 then
              match age with
              | some a =>
                if a ≠ 0 then
                  some (match bandModerateIdfmw a with
                        | some x => some x
                        | none => lvl1)
                else some lvl1
              | none => some lvl1
            else some lvl1
          | none => some lvl1
        else some none
      else if t = 0 then
        if truthyI cc ∧ truthyI age ∧ truthyI pct ∧
            50 ≤ valI cc ∧ 120 ≤ valI age ∧ 50 ≤ valI pct then
          some (some "NTHLB SIC")
        else if truthyI cc ∧ 36 ≤ valI cc then
          match age with
          | none => none   -- TypeError: `130 <= age` / `110 <= age` with age None
          | some a =>
            let c := valI cc
            some (if 36 ≤ c ∧ c < 50 ∧ 130 ≤ a ∧ a ≤ 139 then some "NTHLB Recruit 1"
              else if 36 ≤ c ∧ c < 50 ∧ 120 ≤ a ∧ a ≤ 129 then some "NTHLB Recruit 2"
              else if 110 ≤ a ∧ a ≤ 119 then some "NTHLB Recruit 3"
              else if 100 ≤ a ∧ a ≤ 109 then some "NTHLB Recruit 4"
              else if 90 ≤ a ∧ a ≤ 99 then some "NTHLB Recruit 5"
              else if 80 ≤ a ∧ a ≤ 89 then some "NTHLB Recruit 6"
              else if 70 ≤ a ∧ a ≤ 79 then some "NTHLB Recruit 7"
              else if 60 ≤ a ∧ a ≤ 69 then some "NTHLB Recruit 8"
              else none)
        else some none
      else some none
    else some none
  -- MODERATE snowpack zone: IDFdk / IDFdm / ICHdw / MS
  else if pyStartsWith b "IDFdk" ∨ pyStartsWith b "IDFdm" ∨ pyStartsWith b "ICHdw" ∨
      pyStartsWith b "MS" then
    if ¬ pyStartsWith spp "F" then some none
    else
      match cc with
      | none => none   -- TypeError: `cc >= 36` with cc None
      | some c =>
        if 36 ≤ c ∧ slp ≠ some "80+" then
          if 0 < t then
            let lvl1 : Option String :=
              if ageGe age 175 ∨ (diamGe diam 40 ∧ agePos age) then some "SIC" else none
            match diam with
            | some d =>
              if d < 40 then
                match age with
                | some a =>
                  if a ≠ 0 then
                    some (match bandModerateOther a with
                          | some x => some x
                          | none => lvl1)
                  else some lvl1
                | none => some lvl1
              else some lvl1
            | none => some lvl1
          else if t = 0 then
            match age with
            | some a =>
              if a ≠ 0 then
                if 120 ≤ a then
                  match pct with
                  | none => none   -- TypeError: `pct >= 50` with pct None
                  | some p => some (if 50 ≤ p then some "NTHLB SIC" else none)
                else some (bandNthlbOther a)
              else some none
            | none => some none
          else some none
        else some none
  -- DEEP snowpack zone: ICH other than ICHdw
  else if pyStartsWith b "ICH" ∧ ¬ pyStartsWith b "ICHdw" then
    if pyStartsWith spp "F" then
      if truthyI cc ∧ 46 ≤ valI cc then
        if truthyI age ∧ truthyQ diam then
          let a := valI age
          let d := valQ diam
          some (if 100 ≤ a ∨ (40 ≤ d ∧ 0 < a) then some "SIC"
            else if 90 ≤ a ∧ a ≤ 99 ∧ d < 40 then some "Recruit 1"
            else if 80 ≤ a ∧ a ≤ 89 ∧ d < 40 then some "Recruit 2"
            else if 70 ≤ a ∧ a ≤ 79 ∧ d < 40 then some "Recruit 6"
            else if 60 ≤ a ∧ a ≤ 79 ∧ d < 40 then some "Recruit 8"
            else none)
        else some none
      else if truthyI cc ∧ 36 ≤ valI cc ∧ valI cc < 46 then
        if truthyI age ∧ truthyQ diam then
          let a := valI age
          let d := valQ diam
          some (if 100 ≤ a ∨ (40 ≤ d ∧ 0 < a) then some "Recruit 3"
            else if 90 ≤ a ∧ a ≤ 99 ∧ d < 40 then some "Recruit 4"
            else if 80 ≤ a ∧ a ≤ 89 ∧ d < 40 then some "Recruit 5"
            else if 70 ≤ a ∧ a ≤ 79 ∧ d < 40 then some "Recruit 7"
            else if 60 ≤ a ∧ a ≤ 69 ∧ d < 40 then some "Recruit 9"
            else none)
        else some none
      else some none
    else some none
  else some none

/-- The level computation of `Gar8001.calculate_level` (gar_8001.py lines
99-282): strip spaces from the bec label, run the snow-pack chain, then apply
the final immature override (`if age and age < 20` restricted to the
IDFdk/IDFdm/ICHdw/MS/IDFmw bec groups). -/
def level (bec : String) (age : Option Int) (spp : String) (cc : Option Int)
    (slp : Option String) (thlb : Option ℚ) (diam : Option ℚ) (pct : Option Int) :
    Option (Option String) :=
  let b := pyStripSpaces bec
  match levelChain b age spp cc slp thlb diam pct with
  | none => none
  | some lvl =>
    some (match age with
          | some a =>
            if a ≠ 0 ∧ a < 20 ∧
                (pyStartsWith b "IDFdk" ∨ pyStartsWith b "IDFdm" ∨ pyStartsWith b "ICHdw" ∨
                 pyStartsWith b "MS" ∨ pyStartsWith b "IDFmw") then
              some "Immature"
            else lvl
          | none => lvl)

end Gar8001

namespace Gar8006

/-- The level computation of `Gar8006.calculate_level` (gar_8006.py lines
97-134): a height/crown-closure grid gated on `gfa == 'Y'`, followed by the
age-based immature override inside the same gate. -/
def level (bec : String) (age : Option Int) (cc : Option Int) (gfa : String)
    (height : Option ℚ) : Option String :=
  let b := pyStripSpaces bec
  match height, cc with
  | some h, some c =>
    if gfa = "Y" ∧ h ≠ 0 ∧ c ≠ 0 then
      let lvl : Option String :=
        if 16 ≤ h then
          if 56 ≤ c then some "Mature Cover"
          else if 46 ≤ c ∧ c < 56 then some "Recruit 3"
          else if 36 ≤ c ∧ c < 46 then some "Recruit 6"
          else if 26 ≤ c ∧ c < 36 then some "Recruit 9"
          else none
        else if 14 ≤ h ∧ h < 16 then
          if 56 ≤ c then some "Recruit 1"
          else if 46 ≤ c ∧ c < 56 then some "Recruit 4"
          else if 36 ≤ c ∧ c < 46 then some "Recruit 7"
          else if 26 ≤ c ∧ c < 36 then some "Recruit 10"
          else none
        else if 12 ≤ h ∧ h < 14 then
          if 56 ≤ c then some "Recruit 2"
          else if 46 ≤ c ∧ c < 56 then some "Recruit 5"
          else if 36 ≤ c ∧ c < 46 then some "Recruit 8"
          else if 26 ≤ c ∧ c < 36 then some "Recruit 11"
          else none
        else none
      match age with
      | some a =>
        if ((pyStartsWith b "IDF" ∨ pyStartsWith b "ICH") ∧ a < 25) ∨
            ((pyStartsWith b "MS" ∨ pyStartsWith b "ESSF") ∧ a < 35) then
          some "Immature"
        else lvl
      | none => lvl
    else none
  | _, _ => none

end Gar8006

namespace Gar4001

/-- The level computation of `Gar4001.calculate_level` (gar_4001.py lines
93-114): note-keyed SIC rules gated on `gfa == 'Y'`, then the immature
(`Early Seral`) override for age < 21. -/
def level (age : Option Int) (cc : Option Int) (gfa : String) (notes : String) :
    Option String :=
  if gfa = "Y" then
    let lvl : Option String :=
      if notes = "Mule Deer; ICHmw" then
        if truthyI age ∧ truthyI cc ∧ 101 ≤ valI age ∧ 40 ≤ valI cc then
          some "Mule Deer SIC"
        else none
      else if notes = "Moose; moderate snow" then
        if truthyI age ∧ truthyI cc ∧ 61 ≤ valI age ∧ 40 ≤ valI cc then
          some "Moose SIC"
        else none
      else if notes = "Foraging area" then
        if truthyI age ∧ 81 ≤ valI age then some "Forage Areas" else none
      else none
    match age with
    | some a => if a ≠ 0 ∧ a < 21 then some "Early Seral" else lvl
    | none => lvl
  else none

/-- The plain (non-defaultdict) mapping `self.dict_levels` of gar_4001.py
(lines 49-53); looking up any other note raises `KeyError`, modelled by
`none`. -/
def dict_levels (notes : String) : Option String :=
  if notes = "Mule Deer; ICHmw" then some "Mule Deer SIC"
  else if notes = "Moose; moderate snow" then some "Moose SIC"
  else if notes = "Foraging area" then some "Forage Areas"
  else none

end Gar4001

namespace Gar4010

/-- The level computation of `Gar4010.calculate_level` (gar_4010.py lines
86-106): caribou-management-zone rules keyed on the feature note. -/
def level (notes : String) (gfa : String) (slp : Option String) (age : Option Int) :
    Option String :=
  if notes = "Caribou Management Zone 1" then some "No Harvest Zone"
  else if gfa = "Y" ∧ slp ≠ some "80+" then
    if notes = "Caribou Management Zone 5" ∨ notes = "Caribou Management Zone 6" then
      if truthyI age ∧ 141 ≤ valI age then some "Habitat" else none
    else if notes = "Caribou Management Zone 7" then
      if truthyI age ∧ 141 ≤ valI age ∧ valI age < 251 then some "Habitat"
      else if truthyI age ∧ 251 ≤ valI age then some "Habitat: Older"
      else none
    else if notes = "Caribou Management Zone 8" then
      if truthyI age ∧ 141 ≤ valI age ∧ valI age < 251 then some "Habitat"
      else if truthyI age ∧ 251 ≤ valI age then some "Habitat: Older"
      else if truthyI age ∧ 121 ≤ valI age ∧ valI age < 141 then some "Habitat: Partial Cut"
      else none
    else none
  else none

end Gar4010

namespace Gar8012

/-- The level computation of `Gar8012.calculate_level` (gar_8012.py lines
82-87): `Suitable Cover` for old ESSF/ICH stands, unconditionally overridden
to `No Harvest` on ESSFwcp. -/
def level (bec : String) (age : Option Int) : Option String :=
  let b := pyStripSpaces bec
  let lvl : Option String :=
    if truthyI age ∧ (pyStartsWith b "ESSF" ∨ pyStartsWith b "ICH") ∧ 141 ≤ valI age then
      some "Suitable Cover"
    else none
  if pyStartsWith b "ESSFwcp" then some "No Harvest" else lvl

end Gar8012

/-- Python truthiness of an optional string (`if level:`): present and non-empty. -/
def truthyS (x : Option String) : Bool :=
  match x with
  | some s => s != ""
  | none => false

/-- `f[k] += x` on an auto-vivifying (`defaultdict`) map embedded as a total
function: unknown keys hold `0`. -/
def bump1 {α : Type} [DecidableEq α] (f : α → ℚ) (k : α) (x : ℚ) : α → ℚ :=
  fun a => if a = k then f a + x else f a

/-- `f[k1][k2] += x` on nested defaultdict maps. -/
def bump2 {α β : Type} [DecidableEq α] [DecidableEq β]
    (f : α → β → ℚ) (k1 : α) (k2 : β) (x : ℚ) : α → β → ℚ :=
  fun a b => if a = k1 ∧ b = k2 then f a b + x else f a b

/-- `f[k1][k2][k3] += x` on nested defaultdict maps. -/
def bump3 {α β γ : Type} [DecidableEq α] [DecidableEq β] [DecidableEq γ]
    (f : α → β → γ → ℚ) (k1 : α) (k2 : β) (k3 : γ) (x : ℚ) : α → β → γ → ℚ :=
  fun a b c => if a = k1 ∧ b = k2 ∧ c = k3 then f a b c + x else f a b c

/-- `f[k1][k2][k3][k4] += x` on nested defaultdict maps. -/
def bump4 {α β γ δ : Type} [DecidableEq α] [DecidableEq β] [DecidableEq γ] [DecidableEq δ]
    (f : α → β → γ → δ → ℚ) (k1 : α) (k2 : β) (k3 : γ) (k4 : δ) (x : ℚ) :
    α → β → γ → δ → ℚ :=
  fun a b c d => if a = k1 ∧ b = k2 ∧ c = k3 ∧ d = k4 then f a b c d + x else f a b c d

/-- `f[k] = x` (plain assignment) on a defaultdict map. -/
def setAt {α : Type} [DecidableEq α] (f : α → ℚ) (k : α) (x : ℚ) : α → ℚ :=
  fun a => if a = k then x else f a

namespace Gar8001

/-- The mutable aggregation state of a `Gar8001` object: the two defaultdict
hierarchies (`dict_total_area` keyed operating area → planning cell → level →
bec, and `dict_cell_area` keyed planning cell → level → bec), the per-cell
scalar totals and targets, the registry of cells seen and the zero-target
registry (gar_8001.py lines 37-41).  The level key is `Option String` because
the source uses the Python value `None` itself as a dictionary key for
unclassified records. -/
structure State where
  taLvlBec : String → String → Option String → String → ℚ
  taHect : String → String → ℚ
  caLvlBec : String → Option String → String → ℚ
  caHect : String → ℚ
  caTarget : String → ℚ
  cells : List String
  zeroTarget : String → String → Bool

/-- The all-zero initial aggregation state (a freshly constructed `Gar8001`). -/
def State.empty : State :=
  ⟨fun _ _ _ _ => 0, fun _ _ => 0, fun _ _ _ => 0, fun _ => 0, fun _ => 0, [],
   fun _ _ => false⟩

/-- `Gar8001.calculate_level` (gar_8001.py lines 74-295): compute the level,
then accumulate the polygon area into both hierarchies, record the cell target
and the cell registry, and return the level.  `none` models a `TypeError`
raised inside the level chain (on that path the call never reaches the
accumulation statements). -/
def calculate_level (bec : String) (age : Option Int) (spp : String) (cc : Option Int)
    (slp : Option String) (thlb : Option ℚ) (diam : Option ℚ) (pct : Option Int)
    (gfa : String) (notes : String) (op_area : String) (pcell : String)
    (shp_area : ℚ) (target : ℚ) (height : Option ℚ) (st : State) :
    Option (Option String × State) :=
  match level bec age spp cc slp thlb diam pct with
  | none => none
  | some lvl =>
    let b := pyStripSpaces bec
    let st1 := { st with taLvlBec := bump4 st.taLvlBec op_area pcell lvl b shp_area }
    let st2 := { st1 with caLvlBec := bump3 st1.caLvlBec pcell lvl b shp_area }
    let st3 := { st2 with caTarget := setAt st2.caTarget pcell target }
    let st4 := { st3 with caHect := bump1 st3.caHect pcell shp_area }
    let st5 := { st4 with taHect := bump2 st4.taHect op_area pcell shp_area }
    let st6 := { st5 with cells := if pcell ∈ st5.cells then st5.cells else st5.cells ++ [pcell] }
    let st7 :=
      if op_area ≠ "" ∧ target = 0 then
        { st6 with zeroTarget := fun o p => if o = op_area ∧ p = pcell then true else st6.zeroTarget o p }
      else st6
    some (lvl, st7)

end Gar8001

namespace Gar4010

/-- The mutable aggregation state of a `Gar4010` object; the planning-cell key
of both hierarchies is the feature note (the caribou management zone label),
exactly as in the source (gar_4010.py lines 108-122). -/
structure State where
  taLvl : String → String → String → ℚ
  taHect : String → String → ℚ
  taMat : String → String → ℚ
  caLvl : String → String → ℚ
  caHect : String → ℚ
  caMat : String → ℚ
  cells : List String
  zeroTarget : String → String → Bool

/-- The all-zero initial aggregation state (a freshly constructed `Gar4010`). -/
def State.empty : State :=
  ⟨fun _ _ _ => 0, fun _ _ => 0, fun _ _ => 0, fun _ _ => 0, fun _ => 0, fun _ => 0, [],
   fun _ _ => false⟩

/-- `Gar4010.calculate_level` (gar_4010.py lines 61-124): compute the level and
accumulate; never raises. -/
def calculate_level (bec : String) (age : Option Int) (spp : String) (cc : Option Int)
    (slp : Option String) (thlb : Option ℚ) (diam : Option ℚ) (pct : Option Int)
    (gfa : String) (notes : String) (op_area : String) (pcell : String)
    (shp_area : ℚ) (target : ℚ) (height : Option ℚ) (st : State) :
    Option String × State :=
  let lvl := level notes gfa slp age
  let st1 :=
    match lvl with
    | some l =>
      if l ≠ "" then
        let s1 := { st with taLvl := bump3 st.taLvl op_area notes l shp_area }
        let s2 := { s1 with caLvl := bump2 s1.caLvl notes l shp_area }
        if l = "Habitat" ∨ l = "Habitat: Older" then
          let s3 := { s2 with taMat := bump2 s2.taMat op_area notes shp_area }
          { s3 with caMat := bump1 s3.caMat notes shp_area }
        else s2
      else st
    | none => st
  let st2 := { st1 with taHect := bump2 st1.taHect op_area notes shp_area }
  let st3 := { st2 with caHect := bump1 st2.caHect notes shp_area }
  let st4 := { st3 with cells := if notes ∈ st3.cells then st3.cells else st3.cells ++ [notes] }
  let st5 :=
    if op_area ≠ "" ∧ target = 0 then
      { st4 with zeroTarget := fun o p => if o = op_area ∧ p = notes then true else st4.zeroTarget o p }
    else st4
  (lvl, st5)

end Gar4010

namespace Gar4001

/-- The mutable aggregation state of a `Gar4001` object: per-level `hectares`
and `total_hectares` in both hierarchies plus the cell totals
(gar_4001.py lines 117-129). -/
structure State where
  taLvlHect : String → String → String → ℚ
  taLvlTot : String → String → String → ℚ
  taHect : String → String → ℚ
  caLvlHect : String → String → ℚ
  caLvlTot : String → String → ℚ
  caHect : String → ℚ
  cells : List String
  zeroTarget : String → String → Bool

/-- The all-zero initial aggregation state (a freshly constructed `Gar4001`). -/
def State.empty : State :=
  ⟨fun _ _ _ => 0, fun _ _ _ => 0, fun _ _ => 0, fun _ _ => 0, fun _ _ => 0, fun _ => 0, [],
   fun _ _ => false⟩

/-- `Gar4001.calculate_level` (gar_4001.py lines 68-131).  All accumulation is
gated on `gfa == 'Y'`; inside the gate the source looks the feature note up in
the plain dictionary `self.dict_levels`, which raises `KeyError` for any note
other than the three recognized labels — modelled by the result `none` (in the
source the level-bucket increments preceding that line survive the exception;
this embedding discards the partially mutated state together with the raised
call). -/
def calculate_level (bec : String) (age : Option Int) (spp : String) (cc : Option Int)
    (slp : Option String) (thlb : Option ℚ) (diam : Option ℚ) (pct : Option Int)
    (gfa : String) (notes : String) (op_area : String) (pcell : String)
    (shp_area : ℚ) (target : ℚ) (height : Option ℚ) (st : State) :
    Option (Option String × State) :=
  if gfa = "Y" then
    let lvl := level age cc gfa notes
    let st1 :=
      match lvl with
      | some l =>
        if l ≠ "" then
          let s1 := { st with taLvlHect := bump3 st.taLvlHect op_area pcell l shp_area }
          { s1 with caLvlHect := bump2 s1.caLvlHect pcell l shp_area }
        else st
      | none => st
    match dict_levels notes with
    | none => none
    | some tl =>
      let st2 := { st1 with taLvlTot := bump3 st1.taLvlTot op_area pcell tl shp_area }
      let st3 := { st2 with caLvlTot := bump2 st2.caLvlTot pcell tl shp_area }
      let st4 := { st3 with caHect := bump1 st3.caHect pcell shp_area }
      let st5 := { st4 with taHect := bump2 st4.taHect op_area pcell shp_area }
      let st6 := { st5 with cells := if pcell ∈ st5.cells then st5.cells else st5.cells ++ [pcell] }
      let st7 :=
        if op_area ≠ "" ∧ target = 0 then
          { st6 with zeroTarget := fun o p => if o = op_area ∧ p = pcell then true else st6.zeroTarget o p }
        else st6
      some (lvl, st7)
  else some (none, st)

end Gar4001

namespace Gar8012

/-- The mutable aggregation state of a `Gar8012` object
(gar_8012.py lines 89-101). -/
structure State where
  taLvl : String → String → String → ℚ
  taHect : String → String → ℚ
  caLvl : String → String → ℚ
  caHect : String → ℚ
  cells : List String
  zeroTarget : String → String → Bool

/-- The all-zero initial aggregation state (a freshly constructed `Gar8012`). -/
def State.empty : State :=
  ⟨fun _ _ _ => 0, fun _ _ => 0, fun _ _ => 0, fun _ => 0, [], fun _ _ => false⟩

/-- `Gar8012.calculate_level` (gar_8012.py lines 57-103).  The level buckets
are incremented only for a truthy level other than `No Harvest`; the cell
total-area denominators are incremented only when the level is not
`No Harvest` **and** the bec starts with ESSF or ICH.  Never raises. -/
def calculate_level (bec : String) (age : Option Int) (spp : String) (cc : Option Int)
    (slp : Option String) (thlb : Option ℚ) (diam : Option ℚ) (pct : Option Int)
    (gfa : String) (notes : String) (op_area : String) (pcell : String)
    (shp_area : ℚ) (target : ℚ) (height : Option ℚ) (st : State) :
    Option String × State :=
  let b := pyStripSpaces bec
  let lvl := level bec age
  let st1 :=
    if truthyS lvl ∧ lvl ≠ some "No Harvest" then
      match lvl with
      | some l =>
        let s1 := { st with taLvl := bump3 st.taLvl op_area pcell l shp_area }
        { s1 with caLvl := bump2 s1.caLvl pcell l shp_area }
      | none => st
    else st
  let st2 :=
    if lvl ≠ some "No Harvest" ∧ (pyStartsWith b "ESSF" ∨ pyStartsWith b "ICH") then
      let s1 := { st1 with taHect := bump2 st1.taHect op_area pcell shp_area }
      { s1 with caHect := bump1 s1.caHect pcell shp_area }
    else st1
  let st3 := { st2 with cells := if pcell ∈ st2.cells then st2.cells else st2.cells ++ [pcell] }
  let st4 :=
    if op_area ≠ "" ∧ target = 0 then
      { st3 with zeroTarget := fun o p => if o = op_area ∧ p = pcell then true else st3.zeroTarget o p }
    else st3
  (lvl, st4)

end Gar8012

namespace Gar8001

/-- One (level, bec) bucket visited by `Gar8001.calculate_cell_ranks`: the
stored `AreaBucket` of gar_classes.py with its `hectares` and nullable
`rank`. -/
structure RankBucket where
  level : String
  bec : String
  hectares : ℚ
  rank : Option String
deriving DecidableEq

/-- The per-cell mutable state of one iteration of the outer loop of
`Gar8001.calculate_cell_ranks` (gar_8001.py lines 328-364): the cell's target,
the running total, the current rank string (`''` initially), the scalar cell
sums, and the per-level displayed hectares and rank. -/
structure RankState where
  target : ℚ
  runningTotal : ℚ
  rank : String
  sicHect : ℚ
  nthlbHect : ℚ
  immHect : ℚ
  chHect : ℚ
  nhHect : ℚ
  lvlHect : String → ℚ
  lvlRank : String → Option String

/-- The state at the top of the per-cell loop body: running total `0`, rank
`''`, cell sums `0` (a fresh `CellArea` before any rank pass). -/
def RankState.init (target : ℚ) : RankState :=
  ⟨target, 0, "", 0, 0, 0, 0, 0, fun _ => 0, fun _ => none⟩

/-- The effective (possibly clamped) hectares of one (level, bec) bucket in
`Gar8001.calculate_cell_ranks` (gar_8001.py lines 336-340): an `NTHLB SIC`
bucket whose bec does not start with `IDFmw` and whose hectares reach 50% of
the cell's target is clamped to exactly 50% of the target (`target * 0.5`,
computed once per cell at line 330); every other bucket keeps its accumulated
hectares. -/
def clampArea (s : RankState) (bk : RankBucket) : ℚ :=
  if bk.level = "NTHLB SIC" ∧ ¬ pyStartsWith bk.bec "IDFmw" ∧ s.target * (1 / 2) ≤ bk.hectares then
    s.target * (1 / 2)
  else bk.hectares

/-- The SIC / NTHLB scalar-sum updates at the head of the loop body
(gar_8001.py lines 337-345), given the effective bucket hectares `hect1`. -/
def stepSums (s : RankState) (bk : RankBucket) (hect1 : ℚ) : RankState :=
  if bk.level = "NTHLB SIC" then
    let s' :=
      if pyStartsWith bk.bec "IDFdk" ∨ pyStartsWith bk.bec "IDFdm" ∨
          pyStartsWith bk.bec "ICHdw" ∨ pyStartsWith bk.bec "MS" then
        { s with nthlbHect := s.nthlbHect + hect1 }
      else s
    { s' with sicHect := s'.sicHect + hect1 }
  else if bk.level = "SIC" then
    { s with sicHect := s.sicHect + hect1 }
  else s

/-- The body of the inner double loop of `Gar8001.calculate_cell_ranks`
(gar_8001.py lines 335-364) processing one (level, bec) bucket: the
`NTHLB SIC` clamp (`clampArea`, permanently overwriting the stored hectares),
the SIC/NTHLB/immature scalar sums, the `continue` for the immature level,
the `rank != 'CH'` guard around the running-total comparison, and the final
per-level displayed-hectares update.  Returns the updated state and the
updated stored bucket. -/
def step (s : RankState) (bk : RankBucket) : RankState × RankBucket :=
  let hect1 := clampArea s bk
  let s1 := stepSums s bk hect1
  if bk.level = "Immature" then
    ({ s1 with immHect := s1.immHect + hect1 }, { bk with hectares := hect1 })
  else if s1.rank ≠ "CH" then
    let rt := s1.runningTotal + hect1
    let newRank := if rt ≤ s1.target then "NH" else "CH"
    let s2 := { s1 with
                runningTotal := rt
                rank := newRank
                lvlRank := fun l => if l = bk.level then some newRank else s1.lvlRank l }
    let s3 :=
      if bk.level ≠ "NTHLB SIC" ∧ bk.level ≠ "SIC" then
        if newRank = "CH" then { s2 with chHect := s2.chHect + hect1 }
        else { s2 with nhHect := s2.nhHect + hect1 }
      else s2
    ({ s3 with lvlHect := bump1 s3.lvlHect bk.level hect1 },
     { bk with hectares := hect1, rank := some newRank })
  else
    ({ s1 with lvlHect := bump1 s1.lvlHect bk.level hect1 },
     { bk with hectares := hect1 })

/-- The inner double loop of `Gar8001.calculate_cell_ranks` over the ordered
(level, bec) buckets of one cell, returning the final per-cell state and the
updated stored buckets. -/
def walk (s : RankState) : List RankBucket → RankState × List RankBucket
  | [] => (s, [])
  | bk :: rest =>
    let p := step s bk
    let q := walk p.1 rest
    (q.1, p.2 :: q.2)

end Gar8001

namespace Gar8006

/-- One level bucket visited by `Gar8006.calculate_cell_ranks` (the level's
accumulated hectares and nullable rank). -/
structure RankLevel where
  level : String
  hectares : ℚ
  rank : Option String
deriving DecidableEq

/-- The per-cell mutable state of one iteration of the outer loop of
`Gar8006.calculate_cell_ranks` (gar_8006.py lines 184-209). -/
structure RankState where
  target : ℚ
  runningTotal : ℚ
  rank : String
  chHect : ℚ
  nhHect : ℚ
deriving DecidableEq

/-- The state at the top of the per-cell loop body: running total `0`, rank
`''`, scalar sums `0`. -/
def RankState.init (target : ℚ) : RankState :=
  ⟨target, 0, "", 0, 0⟩

/-- The body of the level loop of `Gar8006.calculate_cell_ranks`
(gar_8006.py lines 190-207): levels with zero accumulated hectares are skipped
by `continue`; otherwise, under the `rank != 'CH'` guard, the running total
advances and the level is ranked, and non-`Mature Cover` levels feed the
conditional/no-harvest scalar sums. -/
def step (s : RankState) (lv : RankLevel) : RankState × RankLevel :=
  if lv.hectares = 0 then (s, lv)
  else if s.rank ≠ "CH" then
    let rt := s.runningTotal + lv.hectares
    let newRank := if rt ≤ s.target then "NH" else "CH"
    let s1 := { s with runningTotal := rt, rank := newRank }
    let s2 :=
      if lv.level ≠ "Mature Cover" then
        if newRank = "CH" then { s1 with chHect := s1.chHect + lv.hectares }
        else { s1 with nhHect := s1.nhHect + lv.hectares }
      else s1
    (s2, { lv with rank := some newRank })
  else (s, lv)

/-- The level loop of `Gar8006.calculate_cell_ranks` over the ordered levels
of one cell. -/
def walk (s : RankState) : List RankLevel → RankState × List RankLevel
  | [] => (s, [])
  | lv :: rest =>
    let p := step s lv
    let q := walk p.1 rest
    (q.1, p.2 :: q.2)

end Gar8006

/-- A planning cell as seen by a target pass: its accumulated hectares and its
target. -/
structure TargetCell where
  hectares : ℚ
  target : ℚ
deriving DecidableEq

namespace Gar8001

/-- The operating-area loop of `Gar8001.calculate_targets` (gar_8001.py lines
305-309): for every operating area and cell, the operating-area target is the
cell-alone target scaled by the operating area's share of the cell's
hectares.  `caTarget`/`caHect` give the cell-alone hierarchy's target and
hectares for each planning cell. -/
def calculate_targets (ta : List (String × List (String × TargetCell)))
    (caTarget caHect : String → ℚ) : List (String × List (String × TargetCell)) :=
  ta.map (fun oc =>
    (oc.1, oc.2.map (fun pc =>
      (pc.1, { pc.2 with target := caTarget pc.1 * (pc.2.hectares / caHect pc.1) }))))

end Gar8001

namespace Gar8006

/-- The operating-area loop of `Gar8006.calculate_targets` (gar_8006.py lines
159-162): each operating-area cell's target is 33% of that operating-area
cell's own accumulated hectares (the float literal `0.33` embedded exactly). -/
def calculate_targets_op (cells : List (String × TargetCell)) :
    List (String × TargetCell) :=
  cells.map (fun pc => (pc.1, { pc.2 with target := pc.2.hectares * (33 / 100) }))

end Gar8006

/-- A per-level target record of gar_4001: the level's accumulated
`total_hectares` denominator and its target. -/
structure TargetLevel4001 where
  totalHectares : ℚ
  target : ℚ
deriving DecidableEq

namespace Gar4001

/-- The per-level body of the operating-area loop of
`Gar4001.calculate_targets` (gar_4001.py lines 138-149): each level's target
is a fixed percentage of that operating-area level's own accumulated
`total_hectares` (40% Mule Deer SIC, 20% Moose SIC, 10% Forage Areas); other
levels are untouched. -/
def calculate_targets_op (levels : List (String × TargetLevel4001)) :
    List (String × TargetLevel4001) :=
  levels.map (fun lv =>
    if lv.1 = "Mule Deer SIC" then
      (lv.1, { lv.2 with target := lv.2.totalHectares * (4 / 10) })
    else if lv.1 = "Moose SIC" then
      (lv.1, { lv.2 with target := lv.2.totalHectares * (2 / 10) })
    else if lv.1 = "Forage Areas" then
      (lv.1, { lv.2 with target := lv.2.totalHectares * (1 / 10) })
    else lv)

end Gar4001

namespace Gar8006

/-- The mutable aggregation state of a `Gar8006` object
(gar_8006.py lines 136-147). -/
structure State where
  taLvl : String → String → String → ℚ
  taHect : String → String → ℚ
  caLvl : String → String → ℚ
  caHect : String → ℚ
  cells : List String
  zeroTarget : String → String → Bool

/-- The all-zero initial aggregation state (a freshly constructed `Gar8006`). -/
def State.empty : State :=
  ⟨fun _ _ _ => 0, fun _ _ => 0, fun _ _ => 0, fun _ => 0, [], fun _ _ => false⟩

/-- `Gar8006.calculate_level` (gar_8006.py lines 72-149): compute the level,
increment the level buckets only for a truthy level, then increment the cell
total-area denominators of both hierarchies unconditionally (lines 140-141,
outside any gate); never raises. -/
def calculate_level (bec : String) (age : Option Int) (spp : String) (cc : Option Int)
    (slp : Option String) (thlb : Option ℚ) (diam : Option ℚ) (pct : Option Int)
    (gfa : String) (notes : String) (op_area : String) (pcell : String)
    (shp_area : ℚ) (target : ℚ) (height : Option ℚ) (st : State) :
    Option String × State :=
  let lvl := level bec age cc gfa height
  let st1 :=
    match lvl with
    | some l =>
      if l ≠ "" then
        let s1 := { st with taLvl := bump3 st.taLvl op_area pcell l shp_area }
        { s1 with caLvl := bump2 s1.caLvl pcell l shp_area }
      else st
    | none => st
  let st2 := { st1 with taHect := bump2 st1.taHect op_area pcell shp_area }
  let st3 := { st2 with caHect := bump1 st2.caHect pcell shp_area }
  let st4 := { st3 with cells := if pcell ∈ st3.cells then st3.cells else st3.cells ++ [pcell] }
  let st5 :=
    if op_area ≠ "" ∧ target = 0 then
      { st4 with zeroTarget := fun o p => if o = op_area ∧ p = pcell then true else st4.zeroTarget o p }
    else st4
  (lvl, st5)

end Gar8006

theorem gar8001_stepSums_target (s : Gar8001.RankState) (bk : Gar8001.RankBucket) (x : ℚ) :
    (Gar8001.stepSums s bk x).target = s.target := by
  unfold Gar8001.stepSums; split_ifs <;> rfl

theorem gar8001_stepSums_runningTotal (s : Gar8001.RankState) (bk : Gar8001.RankBucket) (x : ℚ) :
    (Gar8001.stepSums s bk x).runningTotal = s.runningTotal := by
  unfold Gar8001.stepSums; split_ifs <;> rfl

theorem gar8001_stepSums_rank (s : Gar8001.RankState) (bk : Gar8001.RankBucket) (x : ℚ) :
    (Gar8001.stepSums s bk x).rank = s.rank := by
  unfold Gar8001.stepSums; split_ifs <;> rfl

theorem gar8001_step_hectares (s : Gar8001.RankState) (bk : Gar8001.RankBucket) :
    (Gar8001.step s bk).2.hectares = Gar8001.clampArea s bk := by
  by_cases h1 : bk.level = "Immature" <;> by_cases h2 : s.rank = "CH" <;>
    simp [Gar8001.step, gar8001_stepSums_rank, h1, h2]

theorem gar8001_step_rank_assigned (s : Gar8001.RankState) (bk : Gar8001.RankBucket)
    (hlvl : bk.level ≠ "Immature") (hch : s.rank ≠ "CH") :
    (Gar8001.step s bk).2.rank =
      some (if s.runningTotal + Gar8001.clampArea s bk ≤ s.target then "NH" else "CH") := by
  simp [Gar8001.step, gar8001_stepSums_rank, gar8001_stepSums_runningTotal,
    gar8001_stepSums_target, hlvl, hch]

theorem gar8001_step_state_rank_assigned (s : Gar8001.RankState) (bk : Gar8001.RankBucket)
    (hlvl : bk.level ≠ "Immature") (hch : s.rank ≠ "CH") :
    (Gar8001.step s bk).1.rank =
      (if s.runningTotal + Gar8001.clampArea s bk ≤ s.target then "NH" else "CH") := by
  simp only [Gar8001.step, gar8001_stepSums_rank, gar8001_stepSums_runningTotal,
    gar8001_stepSums_target, if_neg hlvl, ne_eq, hch, not_false_iff, if_pos]
  split_ifs <;> simp [gar8001_stepSums_rank]

theorem gar8001_step_runningTotal_assigned (s : Gar8001.RankState) (bk : Gar8001.RankBucket)
    (hlvl : bk.level ≠ "Immature") (hch : s.rank ≠ "CH") :
    (Gar8001.step s bk).1.runningTotal = s.runningTotal + Gar8001.clampArea s bk := by
  simp only [Gar8001.step, gar8001_stepSums_rank, gar8001_stepSums_runningTotal,
    gar8001_stepSums_target, if_neg hlvl, ne_eq, hch, not_false_iff, if_pos]
  split_ifs <;> simp [gar8001_stepSums_runningTotal]

theorem gar8001_step_frozen (s : Gar8001.RankState) (bk : Gar8001.RankBucket)
    (hch : s.rank = "CH") :
    (Gar8001.step s bk).1.runningTotal = s.runningTotal ∧ (Gar8001.step s bk).1.rank = s.rank ∧
      (Gar8001.step s bk).2.rank = bk.rank := by
  by_cases h1 : bk.level = "Immature" <;>
    simp [Gar8001.step, gar8001_stepSums_rank, gar8001_stepSums_runningTotal, h1, hch]

theorem gar8001_step_rank_imm (s : Gar8001.RankState) (bk : Gar8001.RankBucket)
    (himm : bk.level = "Immature") :
    (Gar8001.step s bk).2.rank = bk.rank := by
  simp [Gar8001.step, himm]

theorem gar8001_walk_frozen (s : Gar8001.RankState) (bks : List Gar8001.RankBucket)
    (hch : s.rank = "CH") :
    (Gar8001.walk s bks).1.runningTotal = s.runningTotal ∧
      (Gar8001.walk s bks).1.rank = s.rank ∧
      (Gar8001.walk s bks).2.map Gar8001.RankBucket.rank = bks.map Gar8001.RankBucket.rank := by
  induction bks generalizing s with
  | nil => simp [Gar8001.walk]
  | cons bk rest ih =>
    obtain ⟨h1, h2, h3⟩ := gar8001_step_frozen s bk hch
    have hch' : (Gar8001.step s bk).1.rank = "CH" := by rw [h2, hch]
    obtain ⟨i1, i2, i3⟩ := ih (Gar8001.step s bk).1 hch'
    simp [Gar8001.walk, i1, i2, i3, h1, h2, h3]

theorem gar8006_step_zero (s : Gar8006.RankState) (lv : Gar8006.RankLevel)
    (h0 : lv.hectares = 0) : Gar8006.step s lv = (s, lv) := by
  simp [Gar8006.step, h0]

theorem gar8006_step_frozen (s : Gar8006.RankState) (lv : Gar8006.RankLevel)
    (hch : s.rank = "CH") : Gar8006.step s lv = (s, lv) := by
  by_cases h0 : lv.hectares = 0 <;> simp [Gar8006.step, h0, hch]

theorem gar8006_step_rank_assigned (s : Gar8006.RankState) (lv : Gar8006.RankLevel)
    (h0 : lv.hectares ≠ 0) (hch : s.rank ≠ "CH") :
    (Gar8006.step s lv).2.rank =
      some (if s.runningTotal + lv.hectares ≤ s.target then "NH" else "CH") := by
  simp [Gar8006.step, h0, hch]

theorem gar8006_step_state_rank_assigned (s : Gar8006.RankState) (lv : Gar8006.RankLevel)
    (h0 : lv.hectares ≠ 0) (hch : s.rank ≠ "CH") :
    (Gar8006.step s lv).1.rank =
      (if s.runningTotal + lv.hectares ≤ s.target then "NH" else "CH") := by
  simp only [Gar8006.step, if_neg h0, ne_eq, hch, not_false_iff, if_pos]
  split_ifs <;> rfl

theorem gar8006_walk_frozen (s : Gar8006.RankState) (lvs : List Gar8006.RankLevel)
    (hch : s.rank = "CH") :
    (Gar8006.walk s lvs).1 = s ∧ (Gar8006.walk s lvs).2 = lvs := by
  induction lvs generalizing s with
  | nil => simp [Gar8006.walk]
  | cons lv rest ih =>
    have h := gar8006_step_frozen s lv hch
    obtain ⟨i1, i2⟩ := ih s hch
    simp [Gar8006.walk, h, i1, i2]

/-- C1: in the rank walk (`calculate_cell_ranks`) of Gar8001 and Gar8006 alike
(the same function runs per cell in both the operating-area and the cell-alone
hierarchy), a ranked bucket receives No-Harvest exactly when the running total
after adding that bucket's stored (possibly clamped) hectares is at most the
cell's target, and Conditional-Harvest exactly when that new running total
exceeds the target; in particular, with target 100 ha and successive bucket
areas 60 and 40 both buckets are No-Harvest, and a further bucket of any
positive hectares is Conditional-Harvest. -/
theorem C1_rank_boundary :
    (∀ (s : Gar8001.RankState) (bk : Gar8001.RankBucket),
      bk.level ≠ "Immature" → bk.rank = none →
      (((Gar8001.step s bk).2.rank = some "NH") ↔
        (s.rank ≠ "CH" ∧ s.runningTotal + (Gar8001.step s bk).2.hectares ≤ s.target)) ∧
      (((Gar8001.step s bk).2.rank = some "CH") ↔
        (s.rank ≠ "CH" ∧ s.target < s.runningTotal + (Gar8001.step s bk).2.hectares)))
    ∧ (∀ h : ℚ, 0 < h →
      (Gar8001.walk (Gar8001.RankState.init 100)
        [⟨"Recruit 1", "IDFdk", 60, none⟩, ⟨"Recruit 2", "IDFdk", 40, none⟩,
         ⟨"Recruit 3", "IDFdk", h, none⟩]).2.map Gar8001.RankBucket.rank
      = [some "NH", some "NH", some "CH"])
    ∧ (∀ h : ℚ, 0 < h →
      (Gar8006.walk (Gar8006.RankState.init 100)
        [⟨"Mature Cover", 60, none⟩, ⟨"Recruit 1", 40, none⟩,
         ⟨"Recruit 2", h, none⟩]).2.map Gar8006.RankLevel.rank
      = [some "NH", some "NH", some "CH"]) := by
  refine ⟨?_, ?_, ?_⟩
  · intro s bk hlvl hrank
    rw [gar8001_step_hectares]
    by_cases hch : s.rank = "CH"
    · have h3 := (gar8001_step_frozen s bk hch).2.2
      rw [h3, hrank]
      simp [hch]
    · rw [gar8001_step_rank_assigned s bk hlvl hch]
      by_cases hle : s.runningTotal + Gar8001.clampArea s bk ≤ s.target
      · simp [hle, hch, not_lt.2 hle]
      · simp [hle, hch, lt_of_not_le hle]
  · intro h hh
    have f1 : ((60 : ℚ) ≤ 100) := by norm_num
    have f2 : ((60 : ℚ) + 40 ≤ 100) := by norm_num
    have f3 : ¬((60 : ℚ) + 40 + h ≤ 100) := by linarith
    simp [Gar8001.walk, Gar8001.step, gar8001_stepSums_rank, gar8001_stepSums_runningTotal,
      gar8001_stepSums_target, Gar8001.clampArea, Gar8001.RankState.init, f1, f2, f3]
  · intro h hh
    have f1 : ((60 : ℚ) ≤ 100) := by norm_num
    have f2 : ((60 : ℚ) + 40 ≤ 100) := by norm_num
    have f3 : ¬((60 : ℚ) + 40 + h ≤ 100) := by linarith
    have hne : h ≠ 0 := hh.ne'
    simp [Gar8006.walk, Gar8006.step, Gar8006.RankState.init, f1, f2, f3, hne]

/-- Witness for C1 at concrete inputs: the characterization instantiated at
the first bucket of a fresh cell with target 100, and the 60/40/5 walks in
both modules. -/
theorem C1_rank_boundary_witness :
    ((((Gar8001.step (Gar8001.RankState.init 100) ⟨"Recruit 1", "IDFdk", 60, none⟩).2.rank =
        some "NH") ↔
      ((Gar8001.RankState.init 100).rank ≠ "CH" ∧
        (Gar8001.RankState.init 100).runningTotal +
          (Gar8001.step (Gar8001.RankState.init 100)
            ⟨"Recruit 1", "IDFdk", 60, none⟩).2.hectares ≤
          (Gar8001.RankState.init 100).target)) ∧
     (((Gar8001.step (Gar8001.RankState.init 100) ⟨"Recruit 1", "IDFdk", 60, none⟩).2.rank =
        some "CH") ↔
      ((Gar8001.RankState.init 100).rank ≠ "CH" ∧
        (Gar8001.RankState.init 100).target <
          (Gar8001.RankState.init 100).runningTotal +
            (Gar8001.step (Gar8001.RankState.init 100)
              ⟨"Recruit 1", "IDFdk", 60, none⟩).2.hectares)))
    ∧ (Gar8001.walk (Gar8001.RankState.init 100)
        [⟨"Recruit 1", "IDFdk", 60, none⟩, ⟨"Recruit 2", "IDFdk", 40, none⟩,
         ⟨"Recruit 3", "IDFdk", 5, none⟩]).2.map Gar8001.RankBucket.rank
      = [some "NH", some "NH", some "CH"]
    ∧ (Gar8006.walk (Gar8006.RankState.init 100)
        [⟨"Mature Cover", 60, none⟩, ⟨"Recruit 1", 40, none⟩,
         ⟨"Recruit 2", 5, none⟩]).2.map Gar8006.RankLevel.rank
      = [some "NH", some "NH", some "CH"] :=
  ⟨C1_rank_boundary.1 (Gar8001.RankState.init 100) ⟨"Recruit 1", "IDFdk", 60, none⟩
      (by decide) rfl,
   C1_rank_boundary.2.1 5 (by norm_num),
   C1_rank_boundary.2.2 5 (by norm_num)⟩

/-- C2: in the Gar8001 rank pass, an `NTHLB SIC` bucket whose bec does not
start with `IDFmw` and whose accumulated hectares reach 50% of the cell's
target has its stored hectares permanently overwritten to exactly 50% of the
target, and when the bucket is ranked it is that clamped value — not the raw
accumulation — that advances the running total; e.g. 80 ha against target 100
is stored and counted as exactly 50. -/
theorem C2_nthlb_sic_cap :
    (∀ (s : Gar8001.RankState) (bk : Gar8001.RankBucket),
      bk.level = "NTHLB SIC" → pyStartsWith bk.bec "IDFmw" = false →
      s.target * (1 / 2) ≤ bk.hectares →
      ((Gar8001.step s bk).2.hectares = s.target * (1 / 2) ∧
       (s.rank ≠ "CH" →
         (Gar8001.step s bk).1.runningTotal = s.runningTotal + s.target * (1 / 2))))
    ∧ (Gar8001.walk (Gar8001.RankState.init 100) [⟨"NTHLB SIC", "MSdm", 80, none⟩]).2 =
        [⟨"NTHLB SIC", "MSdm", 50, some "NH"⟩]
    ∧ (Gar8001.walk (Gar8001.RankState.init 100)
        [⟨"NTHLB SIC", "MSdm", 80, none⟩]).1.runningTotal = 50 := by
  refine ⟨?_, ?_, ?_⟩
  · intro s bk h1 h2 h3
    have hc : Gar8001.clampArea s bk = s.target * (1 / 2) := by
      unfold Gar8001.clampArea
      rw [if_pos ⟨h1, by simp [h2], h3⟩]
    have hlvl : bk.level ≠ "Immature" := by rw [h1]; decide
    refine ⟨?_, ?_⟩
    · rw [gar8001_step_hectares, hc]
    · intro hch
      rw [gar8001_step_runningTotal_assigned s bk hlvl hch, hc]
  · have p1 : pyStartsWith "MSdm" "IDFmw" = false := by decide
    have p2 : pyStartsWith "MSdm" "MS" = true := by decide
    have f1 : ((100 : ℚ) * (1 / 2) ≤ 80) := by norm_num
    have f2 : ((100 : ℚ) * (1 / 2)) = 50 := by norm_num
    have f3 : ((50 : ℚ) ≤ 100) := by norm_num
    simp [Gar8001.walk, Gar8001.step, Gar8001.stepSums, Gar8001.clampArea,
      Gar8001.RankState.init, p1, p2, f1, f2, f3]
    norm_num
  · have p1 : pyStartsWith "MSdm" "IDFmw" = false := by decide
    have p2 : pyStartsWith "MSdm" "MS" = true := by decide
    have f1 : ((100 : ℚ) * (1 / 2) ≤ 80) := by norm_num
    have f2 : ((100 : ℚ) * (1 / 2)) = 50 := by norm_num
    have f3 : ((50 : ℚ) ≤ 100) := by norm_num
    simp [Gar8001.walk, Gar8001.step, gar8001_stepSums_rank, gar8001_stepSums_runningTotal,
      gar8001_stepSums_target, Gar8001.clampArea, Gar8001.RankState.init, p1, p2, f1, f2, f3]
    norm_num

/-- Witness for C2 at concrete inputs: an `NTHLB SIC` bucket of 80 ha in a
fresh cell with target 100 is clamped to 50 and counted as 50. -/
theorem C2_nthlb_sic_cap_witness :
    (Gar8001.step (Gar8001.RankState.init 100) ⟨"NTHLB SIC", "MSdm", 80, none⟩).2.hectares =
      (Gar8001.RankState.init 100).target * (1 / 2) ∧
    ((Gar8001.RankState.init 100).rank ≠ "CH" →
      (Gar8001.step (Gar8001.RankState.init 100) ⟨"NTHLB SIC", "MSdm", 80, none⟩).1.runningTotal =
        (Gar8001.RankState.init 100).runningTotal + (Gar8001.RankState.init 100).target * (1 / 2)) :=
  C2_nthlb_sic_cap.1 (Gar8001.RankState.init 100) ⟨"NTHLB SIC", "MSdm", 80, none⟩ rfl
    (by decide) (by norm_num [Gar8001.RankState.init])

/-- C3: once any bucket in a cell's ordered rank walk is assigned
Conditional-Harvest, the per-cell rank state is `CH` and stays `CH`; from such
a state the running total never advances again and every remaining bucket's
nullable rank is left unset (`none`), in Gar8001 and Gar8006 alike. -/
theorem C3_conditional_harvest_sticky :
    (∀ (s : Gar8001.RankState) (bk : Gar8001.RankBucket), bk.rank = none →
      (Gar8001.step s bk).2.rank = some "CH" → (Gar8001.step s bk).1.rank = "CH")
    ∧ (∀ (s : Gar8001.RankState) (bks : List Gar8001.RankBucket), s.rank = "CH" →
      ((Gar8001.walk s bks).1.runningTotal = s.runningTotal ∧
       ((∀ b ∈ bks, b.rank = none) → ∀ b' ∈ (Gar8001.walk s bks).2, b'.rank = none)))
    ∧ (∀ (s : Gar8006.RankState) (lv : Gar8006.RankLevel), lv.rank = none →
      (Gar8006.step s lv).2.rank = some "CH" → (Gar8006.step s lv).1.rank = "CH")
    ∧ (∀ (s : Gar8006.RankState) (lvs : List Gar8006.RankLevel), s.rank = "CH" →
      ((Gar8006.walk s lvs).1.runningTotal = s.runningTotal ∧
       ((∀ l ∈ lvs, l.rank = none) → ∀ l' ∈ (Gar8006.walk s lvs).2, l'.rank = none))) := by
  refine ⟨?_, ?_, ?_, ?_⟩
  · intro s bk hr h2
    by_cases himm : bk.level = "Immature"
    · rw [gar8001_step_rank_imm s bk himm, hr] at h2
      exact absurd h2 (by simp)
    · by_cases hch : s.rank = "CH"
      · rw [(gar8001_step_frozen s bk hch).2.2, hr] at h2
        exact absurd h2 (by simp)
      · rw [gar8001_step_state_rank_assigned s bk himm hch]
        rw [gar8001_step_rank_assigned s bk himm hch] at h2
        simp only [Option.some.injEq] at h2
        split_ifs at h2 ⊢ <;> simp_all
  · intro s bks hch
    obtain ⟨w1, _, w3⟩ := gar8001_walk_frozen s bks hch
    refine ⟨w1, fun hin b' hb' => ?_⟩
    have : b'.rank ∈ (Gar8001.walk s bks).2.map Gar8001.RankBucket.rank :=
      List.mem_map_of_mem _ hb'
    rw [w3] at this
    obtain ⟨b, hbmem, hbe⟩ := List.mem_map.1 this
    rw [← hbe, hin b hbmem]
  · intro s lv hr h2
    by_cases h0 : lv.hectares = 0
    · rw [show (Gar8006.step s lv).2 = lv from by rw [gar8006_step_zero s lv h0], hr] at h2
      exact absurd h2 (by simp)
    · by_cases hch : s.rank = "CH"
      · rw [show (Gar8006.step s lv).2 = lv from by rw [gar8006_step_frozen s lv hch], hr] at h2
        exact absurd h2 (by simp)
      · rw [gar8006_step_state_rank_assigned s lv h0 hch]
        rw [gar8006_step_rank_assigned s lv h0 hch] at h2
        simp only [Option.some.injEq] at h2
        split_ifs at h2 ⊢ <;> simp_all
  · intro s lvs hch
    obtain ⟨w1, w2⟩ := gar8006_walk_frozen s lvs hch
    refine ⟨by rw [w1], fun hin l' hl' => ?_⟩
    rw [w2] at hl'
    exact hin l' hl'

/-- Witness for C3 at concrete inputs: from a cell state already at `CH`, a
one-bucket walk leaves the running total unchanged and assigns no rank, in
both modules; and the step lemma instantiated where a concrete bucket is
assigned `CH`. -/
theorem C3_conditional_harvest_sticky_witness :
    ((Gar8001.walk ⟨100, 150, "CH", 0, 0, 0, 0, 0, fun _ => 0, fun _ => none⟩
        [⟨"Recruit 1", "IDFdk", 60, none⟩]).1.runningTotal =
      (⟨100, 150, "CH", 0, 0, 0, 0, 0, fun _ => 0, fun _ => none⟩ :
        Gar8001.RankState).runningTotal ∧
     ((∀ b ∈ [(⟨"Recruit 1", "IDFdk", 60, none⟩ : Gar8001.RankBucket)], b.rank = none) →
       ∀ b' ∈ (Gar8001.walk ⟨100, 150, "CH", 0, 0, 0, 0, 0, fun _ => 0, fun _ => none⟩
         [⟨"Recruit 1", "IDFdk", 60, none⟩]).2, b'.rank = none))
    ∧ ((Gar8006.walk ⟨100, 150, "CH", 0, 0⟩ [⟨"Recruit 1", 60, none⟩]).1.runningTotal =
        (⟨100, 150, "CH", 0, 0⟩ : Gar8006.RankState).runningTotal ∧
       ((∀ l ∈ [(⟨"Recruit 1", 60, none⟩ : Gar8006.RankLevel)], l.rank = none) →
         ∀ l' ∈ (Gar8006.walk ⟨100, 150, "CH", 0, 0⟩ [⟨"Recruit 1", 60, none⟩]).2,
           l'.rank = none)) :=
  ⟨C3_conditional_harvest_sticky.2.1 ⟨100, 150, "CH", 0, 0, 0, 0, 0, fun _ => 0, fun _ => none⟩
      [⟨"Recruit 1", "IDFdk", 60, none⟩] rfl,
   C3_conditional_harvest_sticky.2.2.2 ⟨100, 150, "CH", 0, 0⟩ [⟨"Recruit 1", 60, none⟩] rfl⟩

/-- C10: in the Gar8006 rank pass a level with exactly zero accumulated
hectares is skipped outright (`continue`): the step leaves both the per-cell
state (running total, current rank, conditional/no-harvest sums) and the
level's nullable rank completely unchanged, regardless of where the running
total stands; consequently the final per-cell state of a walk equals that of
the walk over the nonzero levels only. -/
theorem C10_zero_area_levels_skipped :
    (∀ (s : Gar8006.RankState) (lv : Gar8006.RankLevel), lv.hectares = 0 →
      Gar8006.step s lv = (s, lv))
    ∧ (∀ (s : Gar8006.RankState) (lvs : List Gar8006.RankLevel),
      (Gar8006.walk s lvs).1 =
        (Gar8006.walk s (lvs.filter (fun l => l.hectares != 0))).1) := by
  refine ⟨gar8006_step_zero, ?_⟩
  intro s lvs
  induction lvs generalizing s with
  | nil => rfl
  | cons lv rest ih =>
    by_cases h0 : lv.hectares = 0
    · have hstep := gar8006_step_zero s lv h0
      simp [Gar8006.walk, List.filter_cons, h0, hstep, ih]
    · simp only [Gar8006.walk, List.filter_cons, bne_iff_ne, ne_eq, h0, not_false_iff, if_pos]
      simp [Gar8006.walk, ih]

/-- Witness for C10 at a concrete input: a zero-hectare level in a fresh cell
with target 7 passes through the step untouched. -/
theorem C10_zero_area_levels_skipped_witness :
    Gar8006.step (Gar8006.RankState.init 7) ⟨"Recruit 4", 0, none⟩ =
      (Gar8006.RankState.init 7, ⟨"Recruit 4", 0, none⟩) :=
  C10_zero_area_levels_skipped.1 (Gar8006.RankState.init 7) ⟨"Recruit 4", 0, none⟩ rfl

/-- C9: the category label returned by `calculate_level` is a function of the
call's arguments alone — calling Gar8001's or Gar4010's `calculate_level` with
identical arguments from two arbitrary (differently mutated) aggregator
states yields the identical label (and, for Gar8001, the identical raised-or-
returned outcome). -/
theorem C9_label_independent_of_state :
    (∀ (bec : String) (age : Option Int) (spp : String) (cc : Option Int)
       (slp : Option String) (thlb : Option ℚ) (diam : Option ℚ) (pct : Option Int)
       (gfa notes op_area pcell : String) (shp_area target : ℚ) (height : Option ℚ)
       (s1 s2 : Gar8001.State),
      (Gar8001.calculate_level bec age spp cc slp thlb diam pct gfa notes op_area pcell
        shp_area target height s1).map Prod.fst =
      (Gar8001.calculate_level bec age spp cc slp thlb diam pct gfa notes op_area pcell
        shp_area target height s2).map Prod.fst)
    ∧ (∀ (bec : String) (age : Option Int) (spp : String) (cc : Option Int)
       (slp : Option String) (thlb : Option ℚ) (diam : Option ℚ) (pct : Option Int)
       (gfa notes op_area pcell : String) (shp_area target : ℚ) (height : Option ℚ)
       (s1 s2 : Gar4010.State),
      (Gar4010.calculate_level bec age spp cc slp thlb diam pct gfa notes op_area pcell
        shp_area target height s1).1 =
      (Gar4010.calculate_level bec age spp cc slp thlb diam pct gfa notes op_area pcell
        shp_area target height s2).1) := by
  constructor
  · intro bec age spp cc slp thlb diam pct gfa notes op_area pcell shp_area target height s1 s2
    cases h : Gar8001.level bec age spp cc slp thlb diam pct <;>
      simp [Gar8001.calculate_level, h]
  · intro bec age spp cc slp thlb diam pct gfa notes op_area pcell shp_area target height s1 s2
    rfl

/-- Counterexample for C7 as stated: in the Gar8001 moderate branch
(bec `IDFmw`, Fir leading, crown closure 40, THLB 1), a record with age null
and diameter 45 cm (≥ 40) is classified as no level at all (`None`), not as
the terminal category `SIC` — the diameter override requires a non-null
positive age (`diam is not None and diam >= 40 and age is not None and
age > 0`). -/
theorem C7_counterexample_age_null_diam45 :
    Gar8001.level "IDFmw" none "F" (some 40) none (some 1) (some 45) none = some none ∧
    (some none : Option (Option String)) ≠ some (some "SIC") :=
  ⟨rfl, by simp⟩

/-- C7 amended: the diameter override classifies a record as `SIC` only when
the age is non-null and positive; with the branch gates satisfied (Fir
leading, crown closure ≥ 36, THLB > 0, slope not `80+`) and age ≥ 20 (so the
final immature override does not fire), any diameter ≥ 40 yields `SIC`
regardless of the age threshold, in both the `IDFmw` (threshold 140) and the
`IDFdk` (threshold 175) branches; the same record with age null yields no
level. -/
theorem C7_amended_diam_override_needs_age :
    (∀ (a : Int) (d : ℚ) (c : Int) (t : ℚ) (slp : Option String) (pct : Option Int),
      20 ≤ a → 40 ≤ d → 36 ≤ c → 0 < t → slp ≠ some "80+" →
      Gar8001.level "IDFmw" (some a) "F" (some c) slp (some t) (some d) pct =
        some (some "SIC"))
    ∧ (∀ (d : ℚ) (c : Int) (t : ℚ) (slp : Option String) (pct : Option Int),
      40 ≤ d → 36 ≤ c → 0 < t → slp ≠ some "80+" →
      Gar8001.level "IDFmw" none "F" (some c) slp (some t) (some d) pct = some none)
    ∧ (∀ (a : Int) (d : ℚ) (c : Int) (t : ℚ) (slp : Option String) (pct : Option Int),
      20 ≤ a → 40 ≤ d → 36 ≤ c → 0 < t → slp ≠ some "80+" →
      Gar8001.level "IDFdk" (some a) "F" (some c) slp (some t) (some d) pct =
        some (some "SIC")) := by
  refine ⟨?_, ?_, ?_⟩
  · intro a d c t slp pct ha hd hc ht hs
    have hc0 : c ≠ 0 := by omega
    have ha0 : a ≠ 0 := by omega
    have hdlt : ¬(d < 40) := not_lt.2 hd
    have halt : ¬(a < 20) := not_lt.2 ha
    have hdge : diamGe (some d) 40 = true := by simp [diamGe, hd]
    have hapos : agePos (some a) = true := by simp [agePos]; omega
    simp [Gar8001.level, Gar8001.levelChain, pyStripSpaces, pyStartsWith, truthyI, valI,
      hc0, ha0, hc, ht, hs, hdlt, halt, hdge, hapos, ht.ne']
  · intro d c t slp pct hd hc ht hs
    have hc0 : c ≠ 0 := by omega
    have hdlt : ¬(d < 40) := not_lt.2 hd
    simp [Gar8001.level, Gar8001.levelChain, pyStripSpaces, pyStartsWith, truthyI, valI,
      ageGe, agePos, diamGe, hc0, hc, ht, hs, hdlt, ht.ne']
  · intro a d c t slp pct ha hd hc ht hs
    have ha0 : a ≠ 0 := by omega
    have hdlt : ¬(d < 40) := not_lt.2 hd
    have halt : ¬(a < 20) := not_lt.2 ha
    have hdge : diamGe (some d) 40 = true := by simp [diamGe, hd]
    have hapos : agePos (some a) = true := by simp [agePos]; omega
    simp [Gar8001.level, Gar8001.levelChain, pyStripSpaces, pyStartsWith, truthyI, valI,
      ha0, hc, ht, hs, hdlt, halt, hdge, hapos, ht.ne']

/-- Witness for C7 amended at concrete inputs: age 25 (well below both SIC age
thresholds) with diameter 45 is `SIC` in both branches; age null with the same
diameter is unclassified. -/
theorem C7_amended_diam_override_needs_age_witness :
    Gar8001.level "IDFmw" (some 25) "F" (some 40) none (some 1) (some 45) none =
      some (some "SIC") ∧
    Gar8001.level "IDFmw" none "F" (some 40) none (some 1) (some 45) none = some none ∧
    Gar8001.level "IDFdk" (some 25) "F" (some 40) none (some 1) (some 45) none =
      some (some "SIC") :=
  ⟨C7_amended_diam_override_needs_age.1 25 45 40 1 none none (by norm_num) (by norm_num)
      (by norm_num) (by norm_num) (by simp),
   C7_amended_diam_override_needs_age.2.1 45 40 1 none none (by norm_num) (by norm_num)
      (by norm_num) (by simp),
   C7_amended_diam_override_needs_age.2.2 25 45 40 1 none none (by norm_num) (by norm_num)
      (by norm_num) (by norm_num) (by simp)⟩

/-- Counterexample for C8 as stated: a deep-snowpack record (bec `ICHmw`, Fir
leading, crown closure 50, diameter 45) with age 15 — below the youth
threshold 20 — classifies as `SIC`, not as `Immature`: the final immature
override of Gar8001 applies only to becs starting with
IDFdk/IDFdm/ICHdw/MS/IDFmw, so it does not override every record below the
youth threshold. -/
theorem C8_counterexample_young_sic :
    Gar8001.level "ICHmw" (some 15) "F" (some 50) none none (some 45) none =
      some (some "SIC") ∧
    (some (some "SIC") : Option (Option String)) ≠ some (some "Immature") :=
  ⟨by decide, by simp⟩

/-- C8 amended: the immature rule is evaluated last and overrides any
previously assigned category, but only inside the regulation's designated bec
groups: in Gar8001, whenever `calculate_level` returns normally for a record
with non-null, nonzero age below 20 whose stripped bec starts with
IDFdk/IDFdm/ICHdw/MS/IDFmw, the returned level is `Immature` whatever the
other rules assigned; in Gar8006, inside the gfa/height/crown-closure gate, an
IDF/ICH record below age 25, and an MS/ESSF record below age 35, classifies as
`Immature`. -/
theorem C8_amended_immature_override_scoped :
    (∀ (bec : String) (age : Option Int) (spp : String) (cc : Option Int)
       (slp : Option String) (thlb : Option ℚ) (diam : Option ℚ) (pct : Option Int)
       (a : Int) (lvl : Option String),
      age = some a → a ≠ 0 → a < 20 →
      (pyStartsWith (pyStripSpaces bec) "IDFdk" ∨ pyStartsWith (pyStripSpaces bec) "IDFdm" ∨
       pyStartsWith (pyStripSpaces bec) "ICHdw" ∨ pyStartsWith (pyStripSpaces bec) "MS" ∨
       pyStartsWith (pyStripSpaces bec) "IDFmw") →
      Gar8001.level bec age spp cc slp thlb diam pct = some lvl →
      lvl = some "Immature")
    ∧ (∀ (bec : String) (a : Int) (c : Int) (hq : ℚ),
      hq ≠ 0 → c ≠ 0 →
      (pyStartsWith (pyStripSpaces bec) "IDF" ∨ pyStartsWith (pyStripSpaces bec) "ICH") →
      a < 25 →
      Gar8006.level bec (some a) (some c) "Y" (some hq) = some "Immature")
    ∧ (∀ (bec : String) (a : Int) (c : Int) (hq : ℚ),
      hq ≠ 0 → c ≠ 0 →
      (pyStartsWith (pyStripSpaces bec) "MS" ∨ pyStartsWith (pyStripSpaces bec) "ESSF") →
      a < 35 →
      Gar8006.level bec (some a) (some c) "Y" (some hq) = some "Immature") := by
  refine ⟨?_, ?_, ?_⟩
  · intro bec age spp cc slp thlb diam pct a lvl hage ha0 ha20 hpre h
    subst hage
    unfold Gar8001.level at h
    cases hc : Gar8001.levelChain (pyStripSpaces bec) (some a) spp cc slp thlb diam pct with
    | none => simp only [hc] at h; exact absurd h (by simp)
    | some lvl0 =>
      simp only [hc, Option.some.injEq] at h
      rw [if_pos ⟨ha0, ha20, hpre⟩] at h
      exact h.symm
  · intro bec a c hq hh hc hpre ha
    simp only [Gar8006.level]
    rw [if_pos ⟨trivial, hh, hc⟩, if_pos (Or.inl ⟨hpre, ha⟩)]
  · intro bec a c hq hh hc hpre ha
    simp only [Gar8006.level]
    rw [if_pos ⟨trivial, hh, hc⟩, if_pos (Or.inr ⟨hpre, ha⟩)]

/-- Witness for C8 amended at concrete inputs: an IDFdk record of age 15 that
the THLB bands would not classify comes out `Immature` in Gar8001, and in the
Gar8006 gate an IDF record of age 15 and an MS record of age 30 both come out
`Immature`. -/
theorem C8_amended_immature_override_scoped_witness :
    (some "Immature" : Option String) = some "Immature" ∧
    Gar8006.level "IDFdk" (some 15) (some 40) "Y" (some 20) = some "Immature" ∧
    Gar8006.level "MSdm" (some 30) (some 40) "Y" (some 20) = some "Immature" :=
  ⟨C8_amended_immature_override_scoped.1 "IDFdk" (some 15) "F" (some 40) none (some 1)
      (some 30) none 15 (some "Immature") rfl (by decide) (by decide) (by decide) (by decide),
   C8_amended_immature_override_scoped.2.1 "IDFdk" 15 40 20 (by norm_num) (by norm_num)
      (by decide) (by decide),
   C8_amended_immature_override_scoped.2.2 "MSdm" 30 40 20 (by norm_num) (by norm_num)
      (by decide) (by decide)⟩

/-- Counterexample for C4 as stated: in Gar8001 the per-operating-area target
IS obtained by scaling the cell-alone target by the operating area's share of
the cell's hectares — with cell target 100, cell hectares 200 and
operating-area hectares 50, the pass writes exactly 100 * (50 / 200) = 25, not
a value recomputed from the operating area's own hectares by a target
formula. -/
theorem C4_counterexample_gar8001_scales :
    Gar8001.calculate_targets [("OpA", [("c1", ⟨50, 0⟩)])] (fun _ => 100) (fun _ => 200) =
      [("OpA", [("c1", ⟨50, 25⟩)])] ∧ (100 * ((50 : ℚ) / 200)) = 25 ∧ (25 : ℚ) ≠ 100 := by
  refine ⟨?_, by norm_num, by norm_num⟩
  have f : (100 : ℚ) * (50 / 200) = 25 := by norm_num
  simp [Gar8001.calculate_targets, f]

/-- C4 amended: Gar4001 and Gar8006 recompute every per-operating-area target
from that operating area's own accumulated hectares (40%/20%/10% of the
level's own `total_hectares` in Gar4001, 33% of the operating-area cell's own
hectares in Gar8006); Gar8001, however, sets the operating-area target to the
cell-alone target scaled by the operating area's share of the cell's hectares
(its report footnote calls these targets proportional). -/
theorem C4_amended_target_formulas :
    (∀ (ta : List (String × List (String × TargetCell))) (caT caH : String → ℚ)
       (op : String) (cells : List (String × TargetCell)) (pc : String) (c : TargetCell),
      (op, cells) ∈ Gar8001.calculate_targets ta caT caH → (pc, c) ∈ cells →
      c.target = caT pc * (c.hectares / caH pc))
    ∧ (∀ (levels : List (String × TargetLevel4001)) (t tgt : ℚ),
      ("Mule Deer SIC", (⟨t, tgt⟩ : TargetLevel4001)) ∈ Gar4001.calculate_targets_op levels →
      tgt = t * (4 / 10))
    ∧ (∀ (levels : List (String × TargetLevel4001)) (t tgt : ℚ),
      ("Moose SIC", (⟨t, tgt⟩ : TargetLevel4001)) ∈ Gar4001.calculate_targets_op levels →
      tgt = t * (2 / 10))
    ∧ (∀ (levels : List (String × TargetLevel4001)) (t tgt : ℚ),
      ("Forage Areas", (⟨t, tgt⟩ : TargetLevel4001)) ∈ Gar4001.calculate_targets_op levels →
      tgt = t * (1 / 10))
    ∧ (∀ (cells : List (String × TargetCell)) (pc : String) (c : TargetCell),
      (pc, c) ∈ Gar8006.calculate_targets_op cells →
      c.target = c.hectares * (33 / 100)) := by
  refine ⟨?_, ?_, ?_, ?_, ?_⟩
  · intro ta caT caH op cells pc c hop hpc
    obtain ⟨⟨op0, cells0⟩, hmem0, heq0⟩ := List.mem_map.1 hop
    obtain ⟨he1, he2⟩ := Prod.mk.injEq .. ▸ heq0
    subst he1
    rw [← he2] at hpc
    obtain ⟨⟨pc0, c0⟩, hmem1, heq1⟩ := List.mem_map.1 hpc
    obtain ⟨hf1, hf2⟩ := Prod.mk.injEq .. ▸ heq1
    subst hf1
    rw [← hf2]
  · intro levels t tgt hmem
    obtain ⟨⟨l0, v0⟩, hmem0, heq0⟩ := List.mem_map.1 hmem
    by_cases h1 : l0 = "Mule Deer SIC"
    · subst h1; simp at heq0; rw [← heq0.2, heq0.1]
    · exfalso
      by_cases h2 : l0 = "Moose SIC"
      · subst h2; simp at heq0
      · by_cases h3 : l0 = "Forage Areas"
        · subst h3; simp at heq0
        · simp [h1, h2, h3] at heq0
  · intro levels t tgt hmem
    obtain ⟨⟨l0, v0⟩, hmem0, heq0⟩ := List.mem_map.1 hmem
    by_cases h2 : l0 = "Moose SIC"
    · subst h2; simp at heq0; rw [← heq0.2, heq0.1]
    · exfalso
      by_cases h1 : l0 = "Mule Deer SIC"
      · subst h1; simp at heq0
      · by_cases h3 : l0 = "Forage Areas"
        · subst h3; simp at heq0
        · simp [h1, h2, h3] at heq0
  · intro levels t tgt hmem
    obtain ⟨⟨l0, v0⟩, hmem0, heq0⟩ := List.mem_map.1 hmem
    by_cases h3 : l0 = "Forage Areas"
    · subst h3; simp at heq0; rw [← heq0.2, heq0.1]; norm_num
    · exfalso
      by_cases h1 : l0 = "Mule Deer SIC"
      · subst h1; simp at heq0
      · by_cases h2 : l0 = "Moose SIC"
        · subst h2; simp at heq0
        · simp [h1, h2, h3] at heq0
  · intro cells pc c hmem
    obtain ⟨⟨pc0, c0⟩, hmem0, heq0⟩ := List.mem_map.1 hmem
    obtain ⟨hf1, hf2⟩ := Prod.mk.injEq .. ▸ heq0
    rw [← hf2]

/-- Witness for C4 amended at concrete inputs: one operating-area cell in each
module, with the stated formula evaluated. -/
theorem C4_amended_target_formulas_witness :
    (⟨50, 25⟩ : TargetCell).target =
      (fun _ : String => (100 : ℚ)) "c1" *
        ((⟨50, 25⟩ : TargetCell).hectares / (fun _ : String => (200 : ℚ)) "c1") ∧
    (20 : ℚ) = 50 * (4 / 10) ∧
    (⟨300, 99⟩ : TargetCell).target = (⟨300, 99⟩ : TargetCell).hectares * (33 / 100) :=
  ⟨C4_amended_target_formulas.1 [("OpA", [("c1", ⟨50, 0⟩)])] (fun _ => 100) (fun _ => 200)
      "OpA" [("c1", ⟨50, 25⟩)] "c1" ⟨50, 25⟩
      (by norm_num [Gar8001.calculate_targets]) (by norm_num),
   C4_amended_target_formulas.2.1 [("Mule Deer SIC", ⟨50, 7⟩)] 50 20
      (by norm_num [Gar4001.calculate_targets_op]),
   C4_amended_target_formulas.2.2.2.2 [("c9", ⟨300, 1⟩)] "c9" ⟨300, 99⟩
      (by norm_num [Gar8006.calculate_targets_op])⟩

/-- Counterexample for C5 as stated: the accumulation step of Gar4001 CAN fail
— for a record inside the gross-forested gate (`gfa = 'Y'`) whose feature note
is not one of the three recognized labels, `calculate_level` raises `KeyError`
on the plain dictionary `self.dict_levels` (modelled by the result `none`)
instead of auto-creating a zero bucket. -/
theorem C5_counterexample_keyerror :
    Gar4001.calculate_level "" (some 100) "" (some 50) none none none none "Y" "Old Forest"
      "opA" "cellA" 10 1 none Gar4001.State.empty = none := rfl

/-- C5 amended: the defaultdict bucket accessors themselves never fail — from
any state, for any (possibly never-seen) keys, the touched buckets are read
with default 0 and incremented — and Gar4001's accumulation succeeds whenever
`gfa ≠ 'Y'` (doing nothing) or the feature note is one of the three recognized
labels; but with `gfa = 'Y'` and an unrecognized note the plain feature-note
dictionary lookup raises (`none`).  The last conjunct characterizes exactly
when the accumulation step succeeds: iff `gfa ≠ 'Y'` or the note is
recognized. -/
theorem C5_amended_accumulate_totality :
    (∀ (bec : String) (age : Option Int) (spp : String) (cc : Option Int)
       (slp : Option String) (thlb : Option ℚ) (diam : Option ℚ) (pct : Option Int)
       (notes op_area pcell : String) (shp_area target : ℚ) (height : Option ℚ)
       (st : Gar4001.State) (tl : String),
      Gar4001.dict_levels notes = some tl →
      ((Gar4001.calculate_level bec age spp cc slp thlb diam pct "Y" notes op_area pcell
          shp_area target height st).map (fun r => r.2.caHect pcell) =
        some (st.caHect pcell + shp_area) ∧
       (Gar4001.calculate_level bec age spp cc slp thlb diam pct "Y" notes op_area pcell
          shp_area target height st).map (fun r => r.2.caLvlTot pcell tl) =
        some (st.caLvlTot pcell tl + shp_area) ∧
       (Gar4001.calculate_level bec age spp cc slp thlb diam pct "Y" notes op_area pcell
          shp_area target height st).map (fun r => r.2.taHect op_area pcell) =
        some (st.taHect op_area pcell + shp_area)))
    ∧ (∀ (bec : String) (age : Option Int) (spp : String) (cc : Option Int)
       (slp : Option String) (thlb : Option ℚ) (diam : Option ℚ) (pct : Option Int)
       (notes op_area pcell : String) (shp_area target : ℚ) (height : Option ℚ)
       (st : Gar4001.State),
      Gar4001.dict_levels notes = none →
      Gar4001.calculate_level bec age spp cc slp thlb diam pct "Y" notes op_area pcell
        shp_area target height st = none)
    ∧ (∀ (bec : String) (age : Option Int) (spp : String) (cc : Option Int)
       (slp : Option String) (thlb : Option ℚ) (diam : Option ℚ) (pct : Option Int)
       (gfa notes op_area pcell : String) (shp_area target : ℚ) (height : Option ℚ)
       (st : Gar4001.State),
      gfa ≠ "Y" →
      Gar4001.calculate_level bec age spp cc slp thlb diam pct gfa notes op_area pcell
        shp_area target height st = some (none, st))
    ∧ (∀ (bec : String) (age : Option Int) (spp : String) (cc : Option Int)
       (slp : Option String) (thlb : Option ℚ) (diam : Option ℚ) (pct : Option Int)
       (gfa notes op_area pcell : String) (shp_area target : ℚ) (height : Option ℚ)
       (st : Gar4001.State),
      ((Gar4001.calculate_level bec age spp cc slp thlb diam pct gfa notes op_area pcell
          shp_area target height st).isSome = true ↔
        (gfa ≠ "Y" ∨ (Gar4001.dict_levels notes).isSome = true))) := by
  refine ⟨?_, ?_, ?_, ?_⟩
  · intro bec age spp cc slp thlb diam pct notes op_area pcell shp_area target height st tl hdict
    cases hl : Gar4001.level age cc "Y" notes <;>
      · simp only [Gar4001.calculate_level, hdict, hl]
        split_ifs <;> simp [bump1, bump2, bump3]
  · intro bec age spp cc slp thlb diam pct notes op_area pcell shp_area target height st hdict
    cases hl : Gar4001.level age cc "Y" notes <;>
      simp [Gar4001.calculate_level, hdict, hl]
  · intro bec age spp cc slp thlb diam pct gfa notes op_area pcell shp_area target height st hgfa
    simp [Gar4001.calculate_level, hgfa]
  · intro bec age spp cc slp thlb diam pct gfa notes op_area pcell shp_area target height st
    by_cases hgfa : gfa = "Y"
    · subst hgfa
      cases hd : Gar4001.dict_levels notes <;>
        cases hl : Gar4001.level age cc "Y" notes <;>
          simp [Gar4001.calculate_level, hd, hl]
    · simp [Gar4001.calculate_level, hgfa]

/-- Witness for C5 amended at concrete inputs: a recognized note accumulates
into a never-before-seen cell starting from the zero bucket; an unrecognized
note fails; a record outside the gate leaves the state untouched. -/
theorem C5_amended_accumulate_totality_witness :
    ((Gar4001.calculate_level "" (some 120) "" (some 45) none none none none "Y"
        "Mule Deer; ICHmw" "opA" "cellNew" 10 1 none Gar4001.State.empty).map
      (fun r => r.2.caHect "cellNew") = some (Gar4001.State.empty.caHect "cellNew" + 10) ∧
     (Gar4001.calculate_level "" (some 120) "" (some 45) none none none none "Y"
        "Mule Deer; ICHmw" "opA" "cellNew" 10 1 none Gar4001.State.empty).map
      (fun r => r.2.caLvlTot "cellNew" "Mule Deer SIC") =
        some (Gar4001.State.empty.caLvlTot "cellNew" "Mule Deer SIC" + 10) ∧
     (Gar4001.calculate_level "" (some 120) "" (some 45) none none none none "Y"
        "Mule Deer; ICHmw" "opA" "cellNew" 10 1 none Gar4001.State.empty).map
      (fun r => r.2.taHect "opA" "cellNew") =
        some (Gar4001.State.empty.taHect "opA" "cellNew" + 10)) ∧
    Gar4001.calculate_level "" (some 120) "" (some 45) none none none none "Y"
      "Old Forest" "opA" "cellNew" 10 1 none Gar4001.State.empty = none ∧
    Gar4001.calculate_level "" (some 120) "" (some 45) none none none none "N"
      "Mule Deer; ICHmw" "opA" "cellNew" 10 1 none Gar4001.State.empty =
      some (none, Gar4001.State.empty) :=
  ⟨C5_amended_accumulate_totality.1 "" (some 120) "" (some 45) none none none none
      "Mule Deer; ICHmw" "opA" "cellNew" 10 1 none Gar4001.State.empty "Mule Deer SIC" rfl,
   C5_amended_accumulate_totality.2.1 "" (some 120) "" (some 45) none none none none
      "Old Forest" "opA" "cellNew" 10 1 none Gar4001.State.empty rfl,
   C5_amended_accumulate_totality.2.2.1 "" (some 120) "" (some 45) none none none none
      "N" "Mule Deer; ICHmw" "opA" "cellNew" 10 1 none Gar4001.State.empty (by simp)⟩

/-- Counterexample for C6 as stated: in Gar8012 a record with bec `IDFdk`
(outside ESSF/ICH) and 10 ha is processed by `calculate_level` yet contributes
nothing to its cell's total-area denominator in either hierarchy — the
increment is conditional, not unconditional. -/
theorem C6_counterexample_gar8012_not_counted :
    ((Gar8012.calculate_level "IDFdk" (some 200) "" none none none none none "" ""
        "op1" "cellA" 10 5 none Gar8012.State.empty).2.caHect "cellA" = 0 ∧
     (Gar8012.calculate_level "IDFdk" (some 200) "" none none none none none "" ""
        "op1" "cellA" 10 5 none Gar8012.State.empty).2.taHect "op1" "cellA" = 0) ∧
    (10 : ℚ) ≠ 0 := by
  refine ⟨⟨?_, ?_⟩, by norm_num⟩ <;>
    simp [Gar8012.calculate_level, Gar8012.level, Gar8012.State.empty, truthyI, valI,
      truthyS, pyStripSpaces, show pyStartsWith "IDFdk" "ESSF" = false from by decide,
      show pyStartsWith "IDFdk" "ICH" = false from by decide,
      show pyStartsWith "IDFdk" "ESSFwcp" = false from by decide]

/-- C6 amended: the per-record increment of the cell total-area denominators
is module-specific, not unconditional: in Gar8012 a record increments both
hierarchies' cell hectares exactly when its level is not `No Harvest` and its
stripped bec starts with ESSF or ICH (otherwise they are unchanged); in
Gar4001 a record outside the `gfa == 'Y'` gate increments nothing, while
inside the gate a recognized note increments both denominators; in Gar8006
every record increments both denominators unconditionally; and in Gar8001
every record whose level computation returns without raising increments both
denominators (a raising record increments neither). -/
theorem C6_amended_conditional_denominator :
    (∀ (bec : String) (age : Option Int) (spp : String) (cc : Option Int)
       (slp : Option String) (thlb : Option ℚ) (diam : Option ℚ) (pct : Option Int)
       (gfa notes op_area pcell : String) (shp_area target : ℚ) (height : Option ℚ)
       (st : Gar8012.State),
      ((Gar8012.calculate_level bec age spp cc slp thlb diam pct gfa notes op_area pcell
          shp_area target height st).2.caHect pcell =
        st.caHect pcell +
          (if Gar8012.level bec age ≠ some "No Harvest" ∧
              (pyStartsWith (pyStripSpaces bec) "ESSF" ∨
               pyStartsWith (pyStripSpaces bec) "ICH") then shp_area else 0) ∧
       (Gar8012.calculate_level bec age spp cc slp thlb diam pct gfa notes op_area pcell
          shp_area target height st).2.taHect op_area pcell =
        st.taHect op_area pcell +
          (if Gar8012.level bec age ≠ some "No Harvest" ∧
              (pyStartsWith (pyStripSpaces bec) "ESSF" ∨
               pyStartsWith (pyStripSpaces bec) "ICH") then shp_area else 0)))
    ∧ (∀ (bec : String) (age : Option Int) (spp : String) (cc : Option Int)
       (slp : Option String) (thlb : Option ℚ) (diam : Option ℚ) (pct : Option Int)
       (gfa notes op_area pcell : String) (shp_area target : ℚ) (height : Option ℚ)
       (st : Gar4001.State),
      gfa ≠ "Y" →
      Gar4001.calculate_level bec age spp cc slp thlb diam pct gfa notes op_area pcell
        shp_area target height st = some (none, st))
    ∧ (∀ (bec : String) (age : Option Int) (spp : String) (cc : Option Int)
       (slp : Option String) (thlb : Option ℚ) (diam : Option ℚ) (pct : Option Int)
       (notes op_area pcell : String) (shp_area target : ℚ) (height : Option ℚ)
       (st : Gar4001.State) (tl : String),
      Gar4001.dict_levels notes = some tl →
      ((Gar4001.calculate_level bec age spp cc slp thlb diam pct "Y" notes op_area pcell
          shp_area target height st).map (fun r => r.2.caHect pcell) =
        some (st.caHect pcell + shp_area) ∧
       (Gar4001.calculate_level bec age spp cc slp thlb diam pct "Y" notes op_area pcell
          shp_area target height st).map (fun r => r.2.taHect op_area pcell) =
        some (st.taHect op_area pcell + shp_area)))
    ∧ (∀ (bec : String) (age : Option Int) (spp : String) (cc : Option Int)
       (slp : Option String) (thlb : Option ℚ) (diam : Option ℚ) (pct : Option Int)
       (gfa notes op_area pcell : String) (shp_area target : ℚ) (height : Option ℚ)
       (st : Gar8006.State),
      ((Gar8006.calculate_level bec age spp cc slp thlb diam pct gfa notes op_area pcell
          shp_area target height st).2.caHect pcell = st.caHect pcell + shp_area ∧
       (Gar8006.calculate_level bec age spp cc slp thlb diam pct gfa notes op_area pcell
          shp_area target height st).2.taHect op_area pcell =
        st.taHect op_area pcell + shp_area))
    ∧ (∀ (bec : String) (age : Option Int) (spp : String) (cc : Option Int)
       (slp : Option String) (thlb : Option ℚ) (diam : Option ℚ) (pct : Option Int)
       (gfa notes op_area pcell : String) (shp_area target : ℚ) (height : Option ℚ)
       (st : Gar8001.State),
      ((Gar8001.calculate_level bec age spp cc slp thlb diam pct gfa notes op_area pcell
          shp_area target height st).map (fun r => r.2.caHect pcell) =
        (Gar8001.level bec age spp cc slp thlb diam pct).map
          (fun _ => st.caHect pcell + shp_area) ∧
       (Gar8001.calculate_level bec age spp cc slp thlb diam pct gfa notes op_area pcell
          shp_area target height st).map (fun r => r.2.taHect op_area pcell) =
        (Gar8001.level bec age spp cc slp thlb diam pct).map
          (fun _ => st.taHect op_area pcell + shp_area))) := by
  refine ⟨?_, ?_, ?_, ?_, ?_⟩
  · intro bec age spp cc slp thlb diam pct gfa notes op_area pcell shp_area target height st
    rcases hl : Gar8012.level bec age with _ | l <;>
      · simp only [Gar8012.calculate_level, hl]
        split_ifs <;> simp_all [bump1, bump2, truthyS]
  · intro bec age spp cc slp thlb diam pct gfa notes op_area pcell shp_area target height st hgfa
    simp [Gar4001.calculate_level, hgfa]
  · intro bec age spp cc slp thlb diam pct notes op_area pcell shp_area target height st tl hdict
    cases hl : Gar4001.level age cc "Y" notes <;>
      · simp only [Gar4001.calculate_level, hdict, hl]
        split_ifs <;> simp [bump1, bump2, bump3]
  · intro bec age spp cc slp thlb diam pct gfa notes op_area pcell shp_area target height st
    rcases hl : Gar8006.level bec age cc gfa height with _ | l <;>
      · simp only [Gar8006.calculate_level, hl]
        split_ifs <;> simp [bump1, bump2, bump3]
  · intro bec age spp cc slp thlb diam pct gfa notes op_area pcell shp_area target height st
    cases hl : Gar8001.level bec age spp cc slp thlb diam pct <;>
      · simp only [Gar8001.calculate_level, hl]
        first
        | exact ⟨rfl, rfl⟩
        | split_ifs <;> simp [bump1, bump2, bump3, bump4, setAt]

/-- Witness for C6 amended at concrete inputs: an ESSF record is counted in
Gar8012; a Gar4001 record outside the gate changes nothing while a recognized
note inside the gate is counted; a gated-out Gar8006 record is still counted;
and a classified Gar8001 record is counted. -/
theorem C6_amended_conditional_denominator_witness :
    ((Gar8012.calculate_level "ESSFdc" (some 200) "" none none none none none "" ""
        "op1" "cellA" 10 5 none Gar8012.State.empty).2.caHect "cellA" =
      Gar8012.State.empty.caHect "cellA" +
        (if Gar8012.level "ESSFdc" (some 200) ≠ some "No Harvest" ∧
            (pyStartsWith (pyStripSpaces "ESSFdc") "ESSF" ∨
             pyStartsWith (pyStripSpaces "ESSFdc") "ICH") then 10 else 0) ∧
     (Gar8012.calculate_level "ESSFdc" (some 200) "" none none none none none "" ""
        "op1" "cellA" 10 5 none Gar8012.State.empty).2.taHect "op1" "cellA" =
      Gar8012.State.empty.taHect "op1" "cellA" +
        (if Gar8012.level "ESSFdc" (some 200) ≠ some "No Harvest" ∧
            (pyStartsWith (pyStripSpaces "ESSFdc") "ESSF" ∨
             pyStartsWith (pyStripSpaces "ESSFdc") "ICH") then 10 else 0)) ∧
    Gar4001.calculate_level "" (some 120) "" (some 45) none none none none "N"
      "Mule Deer; ICHmw" "opB" "cellB" 10 1 none Gar4001.State.empty =
      some (none, Gar4001.State.empty) ∧
    (Gar4001.calculate_level "" (some 120) "" (some 45) none none none none "Y"
        "Mule Deer; ICHmw" "opB" "cellB" 10 1 none Gar4001.State.empty).map
      (fun r => r.2.caHect "cellB") = some (Gar4001.State.empty.caHect "cellB" + 10) ∧
    (Gar8006.calculate_level "IDFww" (some 15) "" (some 60) none none none none "N" ""
        "op2" "cellC" 10 5 none Gar8006.State.empty).2.caHect "cellC" =
      Gar8006.State.empty.caHect "cellC" + 10 ∧
    (Gar8001.calculate_level "IDFdk" (some 160) "F" (some 40) none (some 1) (some 30) none
        "" "" "op3" "cellD" 7 0 none Gar8001.State.empty).map
      (fun r => r.2.caHect "cellD") =
      (Gar8001.level "IDFdk" (some 160) "F" (some 40) none (some 1) (some 30) none).map
        (fun _ => Gar8001.State.empty.caHect "cellD" + 7) :=
  ⟨C6_amended_conditional_denominator.1 "ESSFdc" (some 200) "" none none none none none
      "" "" "op1" "cellA" 10 5 none Gar8012.State.empty,
   C6_amended_conditional_denominator.2.1 "" (some 120) "" (some 45) none none none none
      "N" "Mule Deer; ICHmw" "opB" "cellB" 10 1 none Gar4001.State.empty (by simp),
   (C6_amended_conditional_denominator.2.2.1 "" (some 120) "" (some 45) none none none none
      "Mule Deer; ICHmw" "opB" "cellB" 10 1 none Gar4001.State.empty "Mule Deer SIC" rfl).1,
   (C6_amended_conditional_denominator.2.2.2.1 "IDFww" (some 15) "" (some 60) none none none
      none "N" "" "op2" "cellC" 10 5 none Gar8006.State.empty).1,
   (C6_amended_conditional_denominator.2.2.2.2 "IDFdk" (some 160) "F" (some 40) none (some 1)
      (some 30) none "" "" "op3" "cellD" 7 0 none Gar8001.State.empty).1⟩
